import Mathlib

/-
  Verification development for the wallpaperpush repository.

  The repository renders a "year progress" wallpaper. Its core logic lives in
  plain JavaScript functions:
    - calcDateInfo / getDayOfYear : day-of-year, days-left and percent metrics
      (api handler, part_001 and api/wallpaper.js);
    - parseDateInTz : date-override / timezone resolution (same files);
    - buildDotGridSVG : the dot-grid overlay geometry (part_000);
    - handler : the request handler (part_001).

  The embedding below translates those functions into Lean.  JavaScript
  numbers are modelled as exact integers with NaN as an explicit `none`
  (`JSNum := Option Int`); the magnitudes that occur here are far below 2^53,
  where double arithmetic on integers is exact, and the two fractional
  computations (Math.round of a scaled width and toFixed(1) of a percentage)
  are modelled as exact rational rounding, which agrees with the double
  computations for the values reachable in this program.
  JavaScript `Date` objects are modelled as civil (year, month, day) triples
  (`Option Civil`, with `none` for Invalid Date); the process timezone is
  UTC (the deploy environment), so local-time and UTC accessors coincide and
  a Date constructed at local midnight is just its civil triple.  Timestamp
  arithmetic (`date1 - date2` in milliseconds) is realised through `dateMs`,
  a proleptic-Gregorian day number (exact up to a constant offset, which
  cancels in every difference the code takes), matching ECMAScript MakeDay /
  MakeFullYear semantics including the mapping of constructor years 0..99
  to 1900..1999.
-/

/-- JavaScript number restricted to the integer values this program
computes, with `none` standing for NaN. -/
abbrev JSNum := Option Int

def jsAdd : JSNum → JSNum → JSNum
  | some a, some b => some (a + b)
  | _, _ => none

def jsSub : JSNum → JSNum → JSNum
  | some a, some b => some (a - b)
  | _, _ => none

/-- JS `%` is the truncated remainder (`Int.tmod`); NaN propagates. -/
def jsTmod (a : JSNum) (k : Int) : JSNum :=
  a.map (fun n => n.tmod k)

/-- JS `x === 0`: false for NaN. -/
def jsEqZ : JSNum → Bool
  | some n => n == 0
  | none => false

/-- `Math.round (num / den)` for `den > 0`: round half toward `+∞`. -/
def jsRound (num den : Int) : Int :=
  (2 * num + den).fdiv (2 * den)

/-- JS `String(x)` on the numbers reachable here: decimal integers, or
`"NaN"` for NaN. -/
def jsNumToString : JSNum → String
  | none => "NaN"
  | some n => toString n

/-- Value of a run of characters as an unsigned decimal numeral, or `none`
if some character is not a digit. -/
def digitsVal : List Char → Nat → Option Nat
  | [], acc => some acc
  | c :: rest, acc =>
    if c.isDigit then digitsVal rest (acc * 10 + (c.toNat - 48)) else none

/-- JS `Number(s)` on the string fragment this program feeds it: the empty
string is 0, unsigned decimal digit strings are their value, everything
else is NaN. -/
def jsNumber (s : String) : JSNum :=
  match s.data with
  | [] => some 0
  | l => (digitsVal l 0).map (fun n => (n : Int))

/-- JS `s.split('-')` on a single-character separator. -/
def splitDashAux : List Char → List Char → List String
  | [], acc => [String.mk acc.reverse]
  | c :: rest, acc =>
    if c = '-' then String.mk acc.reverse :: splitDashAux rest []
    else splitDashAux rest (c :: acc)

def splitDash (s : String) : List String :=
  splitDashAux s.data []

/-- A civil calendar date: the (year, month 1..12, day) components of a JS
`Date` under a UTC process timezone. -/
structure Civil where
  year : Int
  month : Int
  day : Int
deriving DecidableEq

/-- The leap-year test from `calcDateInfo`:
`(year % 4 === 0 && year % 100 !== 0) || year % 400 === 0`. -/
def isLeapB (y : Int) : Bool :=
  (y.tmod 4 == 0 && !(y.tmod 100 == 0)) || y.tmod 400 == 0

/-- The same test applied to a possibly-NaN year: `NaN % k` is NaN and
`NaN === 0` is false, so an Invalid Date is never leap. -/
def isLeapNum : JSNum → Bool
  | some y => isLeapB y
  | none => false

/-- `daysInYear` as `calcDateInfo` derives it from the leap test. -/
def daysInYearFn (y : Int) : Int :=
  if isLeapB y then 366 else 365

/-- Cumulative days before month `m` (1..12) in a year, per the Gregorian
month-length table used by ECMAScript MakeDay. -/
def daysBeforeMonth : Int → Bool → Int
  | 1, _ => 0
  | 2, _ => 31
  | 3, L => 59 + if L then 1 else 0
  | 4, L => 90 + if L then 1 else 0
  | 5, L => 120 + if L then 1 else 0
  | 6, L => 151 + if L then 1 else 0
  | 7, L => 181 + if L then 1 else 0
  | 8, L => 212 + if L then 1 else 0
  | 9, L => 243 + if L then 1 else 0
  | 10, L => 273 + if L then 1 else 0
  | 11, L => 304 + if L then 1 else 0
  | 12, L => 334 + if L then 1 else 0
  | _, _ => 0

/-- Proleptic-Gregorian day number of January 1 of year `y`, up to a fixed
constant offset; only differences of `dateMs` values occur in the code, so
the offset cancels everywhere. -/
def daysToYear (y : Int) : Int :=
  365 * y + (y - 1).fdiv 4 - (y - 1).fdiv 100 + (y - 1).fdiv 400

/-- Timestamp (milliseconds) of a civil date at local midnight, up to the
constant offset of `daysToYear`. -/
def dateMs (c : Civil) : Int :=
  (daysToYear c.year + daysBeforeMonth c.month (isLeapB c.year) + (c.day - 1)) * 86400000

/-- ECMAScript MakeFullYear: constructor years 0..99 mean 1900..1999. -/
def jsYearAdj (y : Int) : Int :=
  if 0 ≤ y ∧ y ≤ 99 then y + 1900 else y

/-- `new Date(y, m0, d)` (month 0-based) under a UTC process timezone: any
NaN component gives an Invalid Date; the month is normalised into the
year.  The day component is stored raw and realised exactly by `dateMs`;
the stored year is the month-normalised one, which matches `getFullYear`
for every date this program constructs (their days lie inside the month). -/
def newDateYMD : JSNum → JSNum → JSNum → Option Civil
  | some y, some m0, some d =>
    some { year := jsYearAdj y + m0.fdiv 12, month := m0.emod 12 + 1, day := d }
  | _, _, _ => none

/-- `date1 - date2` on JS dates: NaN if either is invalid. -/
def jsSubDates : Option Civil → Option Civil → JSNum
  | some a, some b => some (dateMs a - dateMs b)
  | _, _ => none

/-- `Math.floor (x / 86400000)`; exact because the millisecond values here
are far below 2^53. -/
def jsFloorDays : JSNum → JSNum
  | some n => some (n.fdiv 86400000)
  | none => none

/-- `date.getFullYear()`: NaN on an Invalid Date. -/
def getFullYearNum (d : Option Civil) : JSNum :=
  d.map Civil.year

/-- `x.toFixed(1)` for the exact rational `num / den` (`den > 0`): the
nearest multiple of 1/10, ties toward `+∞`, rendered with one decimal. -/
def toFixed1Ratio (num den : Int) : String :=
  let t := (20 * num + den).fdiv (2 * den)
  let s := t.natAbs
  (if t < 0 then "-" else "") ++ toString (s / 10) ++ "." ++ toString (s % 10)

/-- `((dayOfYear / daysInYear) * 100).toFixed(1)`; `NaN.toFixed(1)` is
the string `"NaN"`. -/
def percentString (dayOfYear : JSNum) (daysInYear : Int) : String :=
  match dayOfYear with
  | none => "NaN"
  | some n => toFixed1Ratio (n * 100) daysInYear

/-- The record returned by `calcDateInfo`. -/
structure DateInfo where
  dayOfYear : JSNum
  daysLeft : JSNum
  percent : String
  daysInYear : Int
deriving DecidableEq

/-- `calcDateInfo(date)` from part_001: leap test on `getFullYear`,
`dayOfYear = floor((date - jan1)/86400000) + 1`,
`daysLeft = floor((dec31 - date)/86400000)`, percent with one decimal.
`jan1` and `dec31` are built with `new Date(year, 0, 1)` and
`new Date(year, 11, 31)`, hence subject to `jsYearAdj`. -/
def calcDateInfo (date : Option Civil) : DateInfo :=
  let year := getFullYearNum date
  let isLeap := isLeapNum year
  let daysInYear : Int := if isLeap then 366 else 365
  let jan1 := newDateYMD year (some 0) (some 1)
  let dayOfYear := jsAdd (jsFloorDays (jsSubDates date jan1)) (some 1)
  let dec31 := newDateYMD year (some 11) (some 31)
  let daysLeft := jsFloorDays (jsSubDates dec31 date)
  let percent := percentString dayOfYear daysInYear
  { dayOfYear := dayOfYear, daysLeft := daysLeft, percent := percent,
    daysInYear := daysInYear }
/-- `String` truthiness of an optional query parameter: present and
non-empty. -/
def strTruthy : Option String → Bool
  | some s => !s.data.isEmpty
  | none => false

/-- The date-override branch of `parseDateInTz`:
`const [y, m, d] = dateStr.split('-').map(Number); new Date(y, m - 1, d)`.
A missing component is `undefined`, which behaves as NaN in the arithmetic. -/
def parseOverride (dateStr : String) : Option Civil :=
  let parts := splitDash dateStr
  let comp := fun (i : Nat) =>
    match parts[i]? with
    | some s => jsNumber s
    | none => none
  newDateYMD (comp 0) (jsSub (comp 1) (some 1)) (comp 2)

/-- `parseDateInTz(dateStr, tz)` from part_001.  The `Intl.DateTimeFormat`
lookup is modelled by `tzdb`: `some c` when formatting the current instant
in that zone yields civil components `c`, `none` when the zone name makes
the formatter throw (the `catch` then falls through to UTC).  `utcToday`
is the civil date of the current instant in UTC. -/
def parseDateInTz (tzdb : String → Option Civil) (utcToday : Civil)
    (dateStr tz : Option String) : Option Civil :=
  if strTruthy dateStr then
    parseOverride (dateStr.getD "")
  else if strTruthy tz then
    match tzdb (tz.getD "") with
    | some c => newDateYMD (some c.year) (jsSub (some c.month) (some 1)) (some c.day)
    | none => some utcToday
  else
    some utcToday


-- ── Dot-grid generator (part_000: buildDotGridSVG) ───────────────────────────

/-- Canvas width, part_000. -/
def WIDTH : Int := 1290

/-- Canvas height, part_000. -/
def HEIGHT : Int := 2796

/-- Dots per row. -/
def COLS : Int := 20

/-- Total dots, one per day of a standard year. -/
def TOTAL_DOTS : Nat := 365

/-- `Math.ceil(TOTAL_DOTS / COLS)` = 19 rows. -/
def ROWS : Int := ((TOTAL_DOTS + 19) / 20 : Nat)

/-- Left margin in pixels. -/
def MARGIN_LEFT : Int := 159

/-- Right margin in pixels. -/
def MARGIN_RIGHT : Int := 159

/-- Grid top offset in pixels. -/
def GRID_TOP : Int := 1100

/-- Total grid height in pixels. -/
def GRID_HEIGHT : Int := 704

/-- `WIDTH - MARGIN_LEFT - MARGIN_RIGHT` = 972 px. -/
def GRID_W : Int := WIDTH - MARGIN_LEFT - MARGIN_RIGHT

/-- `Math.round(GRID_W / (COLS - 1))`. -/
def H_SPACING : Int := jsRound GRID_W (COLS - 1)

/-- `Math.round(GRID_HEIGHT / (ROWS - 1))`. -/
def V_SPACING : Int := jsRound GRID_HEIGHT (ROWS - 1)

/-- Dot radius in pixels. -/
def DOT_RADIUS : Int := 11

/-- The two circle styles pushed by `buildDotGridSVG`: a filled (elapsed)
dot uses `fill="#1C1C1E"`, an empty (future) dot uses `fill="white"` with
`opacity="0.15"`. -/
inductive DotStyle
  | elapsed
  | future
deriving DecidableEq

/-- One `<circle>` element of the generated SVG: its center, radius and
style. -/
structure DotCircle where
  cx : Int
  cy : Int
  r : Int
  style : DotStyle
deriving DecidableEq

/-- `buildDotGridSVG(filledCount)` from part_000: for each `i` in
`0..TOTAL_DOTS-1`, row-major with `COLS` per row, a circle centred at
`(MARGIN_LEFT + col*H_SPACING, GRID_TOP + row*V_SPACING)`, filled iff
`i < filledCount`.  The SVG string serialisation carries exactly the data
of this circle list. -/
def buildDotGridSVG (filledCount : Int) : List DotCircle :=
  (List.range TOTAL_DOTS).map (fun (i : Nat) =>
    let col : Int := (i : Int) % COLS
    let row : Int := (i : Int) / COLS
    { cx := MARGIN_LEFT + col * H_SPACING
      cy := GRID_TOP + row * V_SPACING
      r := DOT_RADIUS
      style := if (i : Int) < filledCount then DotStyle.elapsed else DotStyle.future })

-- ── Request handler (part_001: RESOLUTIONS, handler) ─────────────────────────

/-- A device resolution entry. -/
structure Resolution where
  width : Int
  height : Int
deriving DecidableEq

/-- The `RESOLUTIONS` table; JS object lookup yields `undefined` (`none`)
for keys outside the table. -/
def RESOLUTIONS : String → Option Resolution
  | "iphone16pro" => some ⟨1290, 2796⟩
  | "iphone15" => some ⟨1179, 2556⟩
  | "iphone14pro" => some ⟨1290, 2796⟩
  | "iphone13" => some ⟨1170, 2532⟩
  | "default" => some ⟨1290, 2796⟩
  | _ => none

/-- `s.padStart(3, '0')`. -/
def padStart3 (s : String) : String :=
  if s.data.length ≥ 3 then s
  else String.mk (List.replicate (3 - s.data.length) '0') ++ s

/-- The overlay-selection block of the handler: probe
`day-<padded>.png`, fall back to `day-365.png`, and fail with the 500
message when even that file is absent.  `store` is the set of files
present in the overlays directory (`fs.existsSync`). -/
def selectOverlay (store : String → Bool) (dayOfYearStr : String) :
    Except String String :=
  let dayFile := "day-" ++ padStart3 dayOfYearStr ++ ".png"
  let overlayFile := if store dayFile then dayFile else "day-365.png"
  if store overlayFile then Except.ok overlayFile
  else Except.error "No overlay image found for today. Run generate-overlays.js first."

/-- The data of the SVG text layer produced by `buildTextSvg`. -/
structure TextSvg where
  width : Int
  height : Int
  text : String
  fontSize : Int
  fontColor : String
  textY : Int
  shadowBlur : Int
  textX : Int
  fontBase64 : String
deriving DecidableEq

/-- `buildTextSvg(width, height, daysLeft, percent, fontBase64)` from
part_001: label text `"<daysLeft> Days Left  •  <percent>%"`, font size
`Math.round(52 * width / 1290)`, y at `Math.round(height * 0.91)`, shadow
`Math.round(8 * width / 1290)`, x at `Math.round(width / 2)`. -/
def buildTextSvg (width height : Int) (daysLeft : JSNum) (percent : String)
    (fontBase64 : String) : TextSvg :=
  { width := width
    height := height
    text := jsNumToString daysLeft ++ " Days Left  •  " ++ percent ++ "%"
    fontSize := jsRound (52 * width) 1290
    fontColor := "#FFFFFF"
    textY := jsRound (height * 91) 100
    shadowBlur := jsRound (8 * width) 1290
    textX := jsRound width 2
    fontBase64 := fontBase64 }

/-- The encoding applied at the end of the sharp pipeline:
`jpeg({quality: 92, mozjpeg: true})` or `png({compressionLevel: 6})`. -/
inductive Encode
  | jpeg (quality : Int) (mozjpeg : Bool)
  | png (compressionLevel : Int)
deriving DecidableEq

/-- The image pipeline the handler runs on success: the selected overlay,
resized to the device resolution with `fit: 'fill'`, composited with the
text layer, then encoded. -/
structure RenderDesc where
  overlayFile : String
  width : Int
  height : Int
  fit : String
  textLayer : TextSvg
  encode : Encode
  contentType : String
deriving DecidableEq

/-- Handler outcome: a 400 JSON error (no image work), a 500 JSON error,
or a 200 image response with its `X-Day-Of-Year`, `X-Days-Left` and
`X-Year-Percent` header values. -/
inductive HandlerResult
  | badRequest (status : Int) (msg : String)
  | serverError (status : Int) (msg : String)
  | ok (render : RenderDesc) (xDayOfYear : String) (xDaysLeft : String)
      (xYearPercent : String)
deriving DecidableEq

/-- The encoding of the response image, or `none` for an error response. -/
def HandlerResult.encodingOf : HandlerResult → Option Encode
  | .ok rd _ _ _ => some rd.encode
  | _ => none

/-- The Content-Type of the response image, or `none` for an error
response. -/
def HandlerResult.contentTypeOf : HandlerResult → Option String
  | .ok rd _ _ _ => some rd.contentType
  | _ => none

/-- Whether the result is a 200 image response. -/
def HandlerResult.isOk : HandlerResult → Bool
  | .ok _ _ _ _ => true
  | _ => false

/-- Whether the result is a 400 client error. -/
def HandlerResult.isBadRequest : HandlerResult → Bool
  | .badRequest _ _ => true
  | _ => false

/-- The query parameters of a request, each possibly absent. -/
structure Req where
  model : Option String
  date : Option String
  format : Option String
  tz : Option String

/-- `handler(req, res)` from part_001.  `store` is the overlays directory
content, `tzdb`/`utcToday` resolve the current instant as in
`parseDateInTz`, `fontBase64` is the cached font file.  Destructuring
defaults apply `model = 'default'` and `format = 'jpg'` only when the
parameter is absent. -/
def handler (store : String → Bool) (tzdb : String → Option Civil)
    (utcToday : Civil) (fontBase64 : String) (req : Req) : HandlerResult :=
  let model := req.model.getD "default"
  match RESOLUTIONS model with
  | none =>
    HandlerResult.badRequest 400
      ("Unsupported model: " ++ model ++
        ". Valid values: iphone16pro, iphone15, iphone14pro, iphone13, default")
  | some resolution =>
    let today := parseDateInTz tzdb utcToday req.date req.tz
    let info := calcDateInfo today
    match selectOverlay store (jsNumToString info.dayOfYear) with
    | Except.error msg => HandlerResult.serverError 500 msg
    | Except.ok overlayFile =>
      let textSvg := buildTextSvg resolution.width resolution.height
        info.daysLeft info.percent fontBase64
      let fmt := req.format.getD "jpg"
      let enc := if fmt = "png" then Encode.png 6 else Encode.jpeg 92 true
      let contentType := if fmt = "png" then "image/png" else "image/jpeg"
      HandlerResult.ok
        { overlayFile := overlayFile
          width := resolution.width
          height := resolution.height
          fit := "fill"
          textLayer := textSvg
          encode := enc
          contentType := contentType }
        (jsNumToString info.dayOfYear) (jsNumToString info.daysLeft) info.percent

-- ── Helper lemmas ────────────────────────────────────────────────────────────

theorem tmodZeroIffDvd (k a : Int) : (a.tmod k == 0) = true ↔ k ∣ a := by
  simp [Int.dvd_iff_tmod_eq_zero]

theorem isLeapB_iff (y : Int) :
    isLeapB y = true ↔ ((4 ∣ y ∧ ¬ (100 ∣ y)) ∨ 400 ∣ y) := by
  unfold isLeapB
  simp only [Bool.or_eq_true, Bool.and_eq_true, Bool.not_eq_true', beq_iff_eq,
    beq_eq_false_iff_ne, ne_eq, ← Int.dvd_iff_tmod_eq_zero]

theorem fdivDay (k : Int) : (k * 86400000).fdiv 86400000 = k :=
  Int.mul_fdiv_cancel k (by norm_num)

theorem dateMs_sub (a b : Civil) :
    dateMs a - dateMs b =
      (daysToYear a.year + daysBeforeMonth a.month (isLeapB a.year) + a.day
        - daysToYear b.year - daysBeforeMonth b.month (isLeapB b.year) - b.day)
      * 86400000 := by
  unfold dateMs
  ring

theorem leapAdj (y : Int) (h : y ≠ 0) : isLeapB (jsYearAdj y) = isLeapB y := by
  unfold jsYearAdj
  split
  · rename_i hr
    have h1 := isLeapB_iff (y + 1900)
    have h2 := isLeapB_iff y
    rcases b1 : isLeapB (y + 1900) with _ | _ <;>
      rcases b2 : isLeapB y with _ | _ <;> simp_all <;> omega
  · rfl

-- ── Claim C1: the leap-year test ─────────────────────────────────────────────

/-- Claim C1: the leap-year test used by the day-metrics calculator returns
true iff the year is divisible by 4 and not by 100, or divisible by 400;
consequently `daysInYear` is 366 exactly in those years and 365 otherwise,
and this is the `daysInYear` that `calcDateInfo` reports. -/
theorem leap_year_test_correct (y : Int) :
    (isLeapB y = true ↔ ((4 ∣ y ∧ ¬ (100 ∣ y)) ∨ 400 ∣ y))
    ∧ (daysInYearFn y = 366 ↔ ((4 ∣ y ∧ ¬ (100 ∣ y)) ∨ 400 ∣ y))
    ∧ (daysInYearFn y = 365 ↔ ¬ ((4 ∣ y ∧ ¬ (100 ∣ y)) ∨ 400 ∣ y))
    ∧ (∀ m d : Int, (calcDateInfo (some ⟨y, m, d⟩)).daysInYear = daysInYearFn y) := by
  refine ⟨isLeapB_iff y, ?_, ?_, ?_⟩
  · unfold daysInYearFn
    rw [← isLeapB_iff]
    rcases h : isLeapB y with _ | _ <;> simp [h]
  · unfold daysInYearFn
    rw [← isLeapB_iff]
    rcases h : isLeapB y with _ | _ <;> simp [h]
  · intro m d
    unfold calcDateInfo daysInYearFn getFullYearNum isLeapNum
    simp

-- ── Claim C4: the 2024-01-01 scenario (metrics part) ─────────────────────────

/-- Claim C4: with date override `2024-01-01` (any timezone parameter — the
override wins) the computed metrics are `dayOfYear = 1`, `daysInYear = 366`,
`daysLeft = 365`, and the percent string is exactly `"0.3"`. -/
theorem metrics_2024_01_01 (tzdb : String → Option Civil) (utcToday : Civil)
    (tz : Option String) :
    calcDateInfo (parseDateInTz tzdb utcToday (some "2024-01-01") tz) =
      { dayOfYear := some 1, daysLeft := some 365, percent := "0.3",
        daysInYear := 366 } := by
  have h1 : strTruthy (some "2024-01-01") = true := by decide
  unfold parseDateInTz
  rw [if_pos h1]
  decide

theorem calcDateInfo_some (c : Civil) :
    calcDateInfo (some c) =
      { dayOfYear := some ((dateMs c - dateMs ⟨jsYearAdj c.year, 1, 1⟩).fdiv 86400000 + 1)
        daysLeft := some ((dateMs ⟨jsYearAdj c.year, 12, 31⟩ - dateMs c).fdiv 86400000)
        percent := percentString
          (some ((dateMs c - dateMs ⟨jsYearAdj c.year, 1, 1⟩).fdiv 86400000 + 1))
          (daysInYearFn c.year)
        daysInYear := daysInYearFn c.year } := by
  have z1 : ((0:Int).fdiv 12) = 0 := by decide
  have z2 : ((0:Int).emod 12) = 0 := by decide
  have z3 : ((11:Int).fdiv 12) = 0 := by decide
  have z4 : ((11:Int).emod 12) = 11 := by decide
  unfold calcDateInfo getFullYearNum isLeapNum newDateYMD jsSubDates jsFloorDays
    jsAdd daysInYearFn
  simp [z1, z2, z3, z4]

-- ── Claim C2: dayOfYear at the year boundaries ───────────────────────────────

/-- Claim C2 counterexample: for a date whose civil year is 50, the code
computes dayOfYear = -693959 rather than 1 on January 1, because the
reference point `new Date(50, 0, 1)` denotes 1950-01-01 (ECMAScript maps
constructor years 0..99 to 1900..1999), so the claim does not hold for
every year. -/
theorem dayOfYear_year50_counterexample :
    (calcDateInfo (some ⟨50, 1, 1⟩)).dayOfYear = some (-693959)
    ∧ ¬ (calcDateInfo (some ⟨50, 1, 1⟩)).dayOfYear = some 1 := by
  decide

/-- Claim C2 (amended): for every year outside 0..99 — the range the JS
Date constructor remaps to 1900..1999 — dayOfYear is 1 on January 1 and
daysInYear(Y) on December 31. -/
theorem dayOfYear_boundaries (y : Int) (h : y < 0 ∨ 100 ≤ y) :
    (calcDateInfo (some ⟨y, 1, 1⟩)).dayOfYear = some 1
    ∧ (calcDateInfo (some ⟨y, 12, 31⟩)).dayOfYear = some (daysInYearFn y) := by
  have hadj : jsYearAdj y = y := by
    unfold jsYearAdj
    rw [if_neg (by omega)]
  constructor
  · simp only [calcDateInfo_some]
    rw [hadj, sub_self]
    decide
  · simp only [calcDateInfo_some]
    rw [hadj, dateMs_sub, fdivDay]
    simp only [Option.some.injEq]
    unfold daysInYearFn
    rcases hL : isLeapB y with _ | _ <;> simp [daysBeforeMonth, hL] <;> omega

theorem dayOfYear_boundaries_witness :
    ((2023:Int) < 0 ∨ 100 ≤ (2023:Int))
    ∧ ((calcDateInfo (some ⟨2023, 1, 1⟩)).dayOfYear = some 1
       ∧ (calcDateInfo (some ⟨2023, 12, 31⟩)).dayOfYear = some (daysInYearFn 2023)) :=
  ⟨Or.inr (by norm_num), dayOfYear_boundaries 2023 (Or.inr (by norm_num))⟩

-- ── Claim C3: daysLeft and its relation to dayOfYear ─────────────────────────

/-- Claim C3 counterexample: for a date whose civil year is 0 the identity
fails — `new Date(0, ...)` denotes year 1900, which is not leap while the
leap test accepts year 0, so daysLeft is 694325 while
daysInYear - dayOfYear is 694326. -/
theorem daysLeft_year0_counterexample :
    (calcDateInfo (some ⟨0, 1, 1⟩)).daysLeft = some 694325
    ∧ jsSub (some (calcDateInfo (some ⟨0, 1, 1⟩)).daysInYear)
        (calcDateInfo (some ⟨0, 1, 1⟩)).dayOfYear = some 694326
    ∧ ¬ (calcDateInfo (some ⟨0, 1, 1⟩)).daysLeft =
        jsSub (some (calcDateInfo (some ⟨0, 1, 1⟩)).daysInYear)
          (calcDateInfo (some ⟨0, 1, 1⟩)).dayOfYear := by
  decide

/-- Claim C3 (amended): for every year except 0 and arbitrary month/day
components, daysLeft = daysInYear - dayOfYear (year 0 is the one year
where the 0..99 constructor remapping changes leap status: year 0 is leap,
1900 is not); and for every year outside 0..99, daysLeft on December 31
is 0 and daysLeft on January 1 is daysInYear - 1. -/
theorem daysLeft_relation (y m d : Int) (h : y ≠ 0) :
    (calcDateInfo (some ⟨y, m, d⟩)).daysLeft
      = jsSub (some (calcDateInfo (some ⟨y, m, d⟩)).daysInYear)
          (calcDateInfo (some ⟨y, m, d⟩)).dayOfYear
    ∧ (y < 0 ∨ 100 ≤ y →
        (calcDateInfo (some ⟨y, 12, 31⟩)).daysLeft = some 0
        ∧ (calcDateInfo (some ⟨y, 1, 1⟩)).daysLeft = some (daysInYearFn y - 1)) := by
  constructor
  · have hLA : isLeapB (jsYearAdj y) = isLeapB y := leapAdj y h
    simp only [calcDateInfo_some, jsSub]
    rw [dateMs_sub, dateMs_sub, fdivDay, fdivDay]
    simp only [Option.some.injEq]
    rw [hLA]
    unfold daysInYearFn
    rcases hL : isLeapB y with _ | _ <;> simp [daysBeforeMonth, hL] <;> omega
  · intro hy
    have hadj : jsYearAdj y = y := by
      unfold jsYearAdj
      rw [if_neg (by omega)]
    constructor
    · simp only [calcDateInfo_some]
      rw [hadj, sub_self]
      decide
    · simp only [calcDateInfo_some]
      rw [hadj, dateMs_sub, fdivDay]
      simp only [Option.some.injEq]
      unfold daysInYearFn
      rcases hL : isLeapB y with _ | _ <;> simp [daysBeforeMonth, hL] <;> omega

theorem daysLeft_relation_witness :
    ((2024:Int) ≠ 0)
    ∧ ((calcDateInfo (some ⟨2024, 5, 15⟩)).daysLeft
        = jsSub (some (calcDateInfo (some ⟨2024, 5, 15⟩)).daysInYear)
            (calcDateInfo (some ⟨2024, 5, 15⟩)).dayOfYear)
    ∧ ((2024:Int) < 0 ∨ 100 ≤ (2024:Int) →
        (calcDateInfo (some ⟨2024, 12, 31⟩)).daysLeft = some 0
        ∧ (calcDateInfo (some ⟨2024, 1, 1⟩)).daysLeft = some (daysInYearFn 2024 - 1)) :=
  ⟨by norm_num, (daysLeft_relation 2024 5 15 (by norm_num)).1,
    (daysLeft_relation 2024 5 15 (by norm_num)).2⟩

-- ── Claim C5: the dot grid ───────────────────────────────────────────────────

/-- Claim C5: the grid has 365 dots; dot i (row-major, 20 per row) is
centred at (159 + (i mod 20)·51, 1100 + (i div 20)·39) with radius 11 and
is filled iff i < filledCount; with filledCount = 0 all dots are empty and
with filledCount = 365 all are filled. -/
theorem dot_grid_correct (f : Int) (i : Nat) (h : i < 365) :
    (buildDotGridSVG f).length = 365
    ∧ (buildDotGridSVG f)[i]? =
        some { cx := 159 + ((i : Int) % 20) * 51
               cy := 1100 + ((i : Int) / 20) * 39
               r := 11
               style := if (i : Int) < f then DotStyle.elapsed else DotStyle.future }
    ∧ (∀ c ∈ buildDotGridSVG 0, c.style = DotStyle.future)
    ∧ (∀ c ∈ buildDotGridSVG 365, c.style = DotStyle.elapsed) := by
  have h51 : H_SPACING = 51 := by decide
  have h39 : V_SPACING = 39 := by decide
  refine ⟨?_, ?_, ?_, ?_⟩
  · unfold buildDotGridSVG
    simp [TOTAL_DOTS]
  · unfold buildDotGridSVG
    rw [List.getElem?_map]
    rw [List.getElem?_range (by simpa [TOTAL_DOTS] using h)]
    simp [h51, h39, MARGIN_LEFT, GRID_TOP, DOT_RADIUS, COLS]
  · intro c hc
    unfold buildDotGridSVG at hc
    obtain ⟨j, hj, rfl⟩ := List.mem_map.mp hc
    show (if (j : Int) < (0:Int) then DotStyle.elapsed else DotStyle.future)
      = DotStyle.future
    rw [if_neg (by omega)]
  · intro c hc
    unfold buildDotGridSVG at hc
    obtain ⟨j, hj, rfl⟩ := List.mem_map.mp hc
    have hj365 : j < 365 := by simpa [TOTAL_DOTS] using List.mem_range.mp hj
    have hlt : (j : Int) < 365 := by omega
    simp [hlt]

theorem dot_grid_correct_witness :
    ((7:Nat) < 365)
    ∧ (buildDotGridSVG 100)[(7:Nat)]? =
        some { cx := 159 + (((7:Nat) : Int) % 20) * 51
               cy := 1100 + (((7:Nat) : Int) / 20) * 39
               r := 11
               style := if ((7:Nat) : Int) < 100 then DotStyle.elapsed
                        else DotStyle.future } :=
  ⟨by decide, (dot_grid_correct 100 7 (by decide)).2.1⟩

-- ── Claim C6: the day-366 fallback ───────────────────────────────────────────

/-- Claim C6: when the computed dayOfYear is 366 and no day-366 asset
exists, overlay selection deterministically resolves to the day-365 asset —
the same selection a day-365 request makes — succeeding whenever day-365
is present, and it fails with the 500 error exactly when the day-365 asset
is also absent. -/
theorem overlay_fallback_366 (store : String → Bool)
    (h366 : store "day-366.png" = false) :
    selectOverlay store "366" = selectOverlay store "365"
    ∧ (store "day-365.png" = true →
        selectOverlay store "366" = Except.ok "day-365.png")
    ∧ (store "day-365.png" = false →
        selectOverlay store "366" =
          Except.error "No overlay image found for today. Run generate-overlays.js first.") := by
  have a366 : ("day-" ++ padStart3 "366" ++ ".png" : String) = "day-366.png" := by
    decide
  have a365 : ("day-" ++ padStart3 "365" ++ ".png" : String) = "day-365.png" := by
    decide
  unfold selectOverlay
  rcases h365 : store "day-365.png" with _ | _ <;>
    simp [a366, a365, h366, h365]

theorem overlay_fallback_366_witness :
    ((fun s => s == "day-365.png") "day-366.png" = false)
    ∧ selectOverlay (fun s => s == "day-365.png") "366"
        = selectOverlay (fun s => s == "day-365.png") "365" :=
  ⟨by decide, (overlay_fallback_366 (fun s => s == "day-365.png") (by decide)).1⟩

-- ── Claim C7: unknown device model ───────────────────────────────────────────

/-- Claim C7: a model string outside the RESOLUTIONS table makes the
handler return the 400 client-error response, which carries no render
description — the handler returns before date resolution, overlay
selection or any image work. -/
theorem handler_unknown_model (store : String → Bool)
    (tzdb : String → Option Civil) (utcToday : Civil) (fontBase64 : String)
    (req : Req) (h : RESOLUTIONS (req.model.getD "default") = none) :
    handler store tzdb utcToday fontBase64 req =
      HandlerResult.badRequest 400
        ("Unsupported model: " ++ req.model.getD "default" ++
          ". Valid values: iphone16pro, iphone15, iphone14pro, iphone13, default")
    ∧ (handler store tzdb utcToday fontBase64 req).isOk = false := by
  unfold handler
  dsimp only
  rw [h]
  exact ⟨rfl, rfl⟩

theorem handler_unknown_model_witness :
    (RESOLUTIONS ((some "unknownmodel").getD "default") = none)
    ∧ handler (fun _ => true) (fun _ => none) ⟨2024, 1, 1⟩ "F"
        ⟨some "unknownmodel", none, none, none⟩ =
      HandlerResult.badRequest 400
        ("Unsupported model: " ++ (some "unknownmodel").getD "default" ++
          ". Valid values: iphone16pro, iphone15, iphone14pro, iphone13, default") :=
  ⟨by decide,
    (handler_unknown_model (fun _ => true) (fun _ => none) ⟨2024, 1, 1⟩ "F"
      ⟨some "unknownmodel", none, none, none⟩ (by decide)).1⟩

-- ── Claim C8: invalid timezone falls back to UTC ─────────────────────────────

/-- Claim C8: with no date override and an invalid or unsupported timezone
name — one on which the Intl formatter throws (tzdb returns none), or the
falsy empty string — the calendar resolver returns UTC today, exactly the
date returned when no timezone is supplied; the throw is absorbed, so no
error reaches the caller. -/
theorem parse_invalid_tz (tzdb : String → Option Civil) (utcToday : Civil)
    (t : String) (h : t = "" ∨ tzdb t = none) :
    parseDateInTz tzdb utcToday none (some t) = some utcToday
    ∧ parseDateInTz tzdb utcToday none (some t)
        = parseDateInTz tzdb utcToday none none := by
  rcases h with h | h
  · subst h
    exact ⟨rfl, rfl⟩
  · have h0 : strTruthy (none : Option String) = false := rfl
    unfold parseDateInTz
    rcases ht : strTruthy (some t) with _ | _ <;> simp [h0, ht, h]

theorem parse_invalid_tz_witness :
    (("Not/A_Zone" : String) = ""
      ∨ (fun (_ : String) => (none : Option Civil)) "Not/A_Zone" = none)
    ∧ parseDateInTz (fun _ => none) ⟨2025, 10, 12⟩ none (some "Not/A_Zone")
        = some ⟨2025, 10, 12⟩ :=
  ⟨Or.inr rfl,
    (parse_invalid_tz (fun _ => none) ⟨2025, 10, 12⟩ "Not/A_Zone" (Or.inr rfl)).1⟩

-- ── Claim C9: the fallback covers every missing day, including NaN ───────────

/-- Claim C9: the day-365 substitution is not specific to day 366 — any
probed day file that is absent falls back to day-365 when that asset is
present; in particular a malformed date override ("not-a-date") yields a
NaN day-of-year whose file "day-NaN.png" is absent, yet the handler still
renders the day-365 overlay (a 200 image, never a client error) and the
X-Day-Of-Year header carries the non-numeric value "NaN". -/
theorem fallback_any_missing_day (store : String → Bool)
    (tzdb : String → Option Civil) (utcToday : Civil) (fontBase64 : String)
    (dayStr : String)
    (h365 : store "day-365.png" = true)
    (hmiss : store ("day-" ++ padStart3 dayStr ++ ".png") = false)
    (hnan : store "day-NaN.png" = false) :
    selectOverlay store dayStr = Except.ok "day-365.png"
    ∧ handler store tzdb utcToday fontBase64
        ⟨some "iphone16pro", some "not-a-date", none, none⟩ =
      HandlerResult.ok
        { overlayFile := "day-365.png", width := 1290, height := 2796, fit := "fill"
          textLayer := buildTextSvg 1290 2796 none "NaN" fontBase64
          encode := Encode.jpeg 92 true, contentType := "image/jpeg" }
        "NaN" "NaN" "NaN" := by
  constructor
  · unfold selectOverlay
    simp [hmiss, h365]
  · have hparse : parseDateInTz tzdb utcToday (some "not-a-date") none = none := rfl
    have hinfo : calcDateInfo (none : Option Civil) =
        { dayOfYear := none, daysLeft := none, percent := "NaN", daysInYear := 365 } := by
      decide
    have aNaN : ("day-" ++ padStart3 "NaN" ++ ".png" : String) = "day-NaN.png" := by
      decide
    have hsel : selectOverlay store "NaN" = Except.ok "day-365.png" := by
      unfold selectOverlay
      simp [aNaN, hnan, h365]
    unfold handler
    dsimp only [Option.getD_some, Option.getD_none]
    rw [show RESOLUTIONS "iphone16pro" = some ⟨1290, 2796⟩ from by decide]
    dsimp only
    rw [hparse, hinfo]
    dsimp only [jsNumToString]
    rw [hsel]
    dsimp only
    rw [if_neg (by decide : ¬ (("jpg" : String) = "png")),
      if_neg (by decide : ¬ (("jpg" : String) = "png"))]

theorem fallback_any_missing_day_witness :
    ((fun s => s == "day-365.png") "day-365.png" = true
     ∧ (fun s => s == "day-365.png") ("day-" ++ padStart3 "042" ++ ".png") = false
     ∧ (fun s => s == "day-365.png") "day-NaN.png" = false)
    ∧ selectOverlay (fun s => s == "day-365.png") "042" = Except.ok "day-365.png" :=
  ⟨⟨by decide, by decide, by decide⟩,
    (fallback_any_missing_day (fun s => s == "day-365.png") (fun _ => none)
      ⟨2025, 1, 1⟩ "F" "042" (by decide) (by decide) (by decide)).1⟩

-- ── Claim C10: every non-png format encodes as JPEG ──────────────────────────

/-- Claim C10: for every format value other than the exact string "png" —
absent, "jpg", or any unrecognised string — a successful response is
encoded as JPEG (quality 92, mozjpeg) with Content-Type image/jpeg, and
the format value never causes a client-error rejection: a 400 arises only
from an unknown model. -/
theorem handler_non_png_is_jpeg (store : String → Bool)
    (tzdb : String → Option Civil) (utcToday : Civil) (fontBase64 : String)
    (req : Req) (hfmt : req.format.getD "jpg" ≠ "png") :
    (handler store tzdb utcToday fontBase64 req).encodingOf
        = (if (handler store tzdb utcToday fontBase64 req).isOk
           then some (Encode.jpeg 92 true) else none)
    ∧ (handler store tzdb utcToday fontBase64 req).contentTypeOf
        = (if (handler store tzdb utcToday fontBase64 req).isOk
           then some "image/jpeg" else none)
    ∧ ((handler store tzdb utcToday fontBase64 req).isBadRequest = true →
        RESOLUTIONS (req.model.getD "default") = none) := by
  unfold handler
  dsimp only
  rcases hres : RESOLUTIONS (req.model.getD "default") with _ | r
  · simp [hres, HandlerResult.encodingOf, HandlerResult.contentTypeOf,
      HandlerResult.isOk, HandlerResult.isBadRequest]
  · simp only [hres]
    dsimp only
    rcases hsel : selectOverlay store
        (jsNumToString (calcDateInfo (parseDateInTz tzdb utcToday req.date req.tz)).dayOfYear)
        with msg | file
    · simp [hsel, HandlerResult.encodingOf, HandlerResult.contentTypeOf,
        HandlerResult.isOk, HandlerResult.isBadRequest]
    · simp only [hsel]
      dsimp only
      rw [if_neg hfmt, if_neg hfmt]
      simp [HandlerResult.encodingOf, HandlerResult.contentTypeOf,
        HandlerResult.isOk, HandlerResult.isBadRequest]

theorem handler_non_png_is_jpeg_witness :
    (((some "webp" : Option String).getD "jpg") ≠ "png")
    ∧ (handler (fun s => s == "day-365.png") (fun _ => none) ⟨2025, 1, 1⟩ "F"
          ⟨some "iphone13", some "2024-01-01", some "webp", none⟩).encodingOf
        = (if (handler (fun s => s == "day-365.png") (fun _ => none) ⟨2025, 1, 1⟩ "F"
              ⟨some "iphone13", some "2024-01-01", some "webp", none⟩).isOk
           then some (Encode.jpeg 92 true) else none) :=
  ⟨by decide,
    (handler_non_png_is_jpeg (fun s => s == "day-365.png") (fun _ => none)
      ⟨2025, 1, 1⟩ "F" ⟨some "iphone13", some "2024-01-01", some "webp", none⟩
      (by decide)).1⟩
